import Mathlib

/-!
Verification of the `LiveClient` audio streaming session manager of the
peacemap repository.  JavaScript strings are modelled as lists of natural
numbers (their UTF-16 code units), byte buffers (`Uint8Array`) as lists of
naturals below 256, and the device timeline (floating-point seconds) as
rational numbers: every operation the source performs on times is `max` and
`+` with a power-of-two scale, which binary floating point computes exactly,
so the rational model is faithful on the values the claims range over.
-/

namespace Peacemap

/-! ### AudioCodec: base64 transport encoding

`LiveClient.encode` builds a binary string whose code units are the bytes and
applies the browser's `btoa`; `LiveClient.decode` applies `atob` and reads the
code units back.  `btoa`/`atob` are standard RFC 4648 base64 over
code units below 256; their composition is modelled directly on the byte list.
-/

/-- The 64 base64 alphabet characters as code units:
`A`-`Z`, `a`-`z`, `0`-`9`, `+`, `/`. -/
def b64Alphabet : List Nat :=
  [65, 66, 67, 68, 69, 70, 71, 72, 73, 74, 75, 76, 77, 78, 79, 80,
   81, 82, 83, 84, 85, 86, 87, 88, 89, 90,
   97, 98, 99, 100, 101, 102, 103, 104, 105, 106, 107, 108, 109, 110,
   111, 112, 113, 114, 115, 116, 117, 118, 119, 120, 121, 122,
   48, 49, 50, 51, 52, 53, 54, 55, 56, 57, 43, 47]

/-- Code unit of the base64 digit for a sextet value. -/
def sextetCode (n : Nat) : Nat := b64Alphabet.getD n 65

/-- Sextet value of a base64 digit (position in the alphabet). -/
def codeSextet (c : Nat) : Nat := b64Alphabet.indexOf c

/-- The padding character `=` as a code unit. -/
def padCode : Nat := 61

/-- `LiveClient.encode`: bytes to base64 text (as code units), grouping three
bytes into four sextets, padding a final group with `=`. -/
def encode : List Nat → List Nat
  | [] => []
  | [b0] => [sextetCode (b0 / 4), sextetCode (b0 % 4 * 16), padCode, padCode]
  | [b0, b1] => [sextetCode (b0 / 4), sextetCode (b0 % 4 * 16 + b1 / 16),
                 sextetCode (b1 % 16 * 4), padCode]
  | b0 :: b1 :: b2 :: rest =>
      sextetCode (b0 / 4) :: sextetCode (b0 % 4 * 16 + b1 / 16) ::
      sextetCode (b1 % 16 * 4 + b2 / 64) :: sextetCode (b2 % 64) :: encode rest

/-- `LiveClient.decode`: base64 text (as code units) back to bytes, reading
four digits at a time and honouring `=` padding in the final group. -/
def decode : List Nat → List Nat
  | c0 :: c1 :: c2 :: c3 :: rest =>
      if c2 = padCode then
        [codeSextet c0 * 4 + codeSextet c1 / 16]
      else if c3 = padCode then
        [codeSextet c0 * 4 + codeSextet c1 / 16,
         codeSextet c1 % 16 * 16 + codeSextet c2 / 4]
      else
        (codeSextet c0 * 4 + codeSextet c1 / 16) ::
        (codeSextet c1 % 16 * 16 + codeSextet c2 / 4) ::
        (codeSextet c2 % 4 * 64 + codeSextet c3) :: decode rest
  | _ => []

theorem codeSextet_sextetCode {n : Nat} (h : n < 64) :
    codeSextet (sextetCode n) = n := by
  have key : ∀ m : Fin 64, codeSextet (sextetCode m.val) = m.val := by decide
  exact key ⟨n, h⟩

theorem sextetCode_ne_pad {n : Nat} (h : n < 64) : sextetCode n ≠ padCode := by
  have key : ∀ m : Fin 64, sextetCode m.val ≠ padCode := by decide
  exact key ⟨n, h⟩

theorem decode_encode_aux :
    ∀ bs : List Nat, (∀ b ∈ bs, b < 256) → decode (encode bs) = bs
  | [], _ => by simp [encode, decode]
  | [b0], h => by
      have hb0 : b0 < 256 := h b0 (by simp)
      have h0 : b0 / 4 < 64 := by omega
      have h1 : b0 % 4 * 16 < 64 := by omega
      simp only [encode, decode]
      rw [if_pos trivial, codeSextet_sextetCode h0, codeSextet_sextetCode h1]
      simp only [List.cons.injEq, and_true]
      omega
  | [b0, b1], h => by
      have hb0 : b0 < 256 := h b0 (by simp)
      have hb1 : b1 < 256 := h b1 (by simp)
      have h0 : b0 / 4 < 64 := by omega
      have h1 : b0 % 4 * 16 + b1 / 16 < 64 := by omega
      have h2 : b1 % 16 * 4 < 64 := by omega
      simp only [encode, decode]
      rw [if_neg (sextetCode_ne_pad h2), if_pos trivial,
        codeSextet_sextetCode h0, codeSextet_sextetCode h1,
        codeSextet_sextetCode h2]
      simp only [List.cons.injEq, and_true]
      omega
  | b0 :: b1 :: b2 :: rest, h => by
      have hb0 : b0 < 256 := h b0 (by simp)
      have hb1 : b1 < 256 := h b1 (by simp)
      have hb2 : b2 < 256 := h b2 (by simp)
      have h0 : b0 / 4 < 64 := by omega
      have h1 : b0 % 4 * 16 + b1 / 16 < 64 := by omega
      have h2 : b1 % 16 * 4 + b2 / 64 < 64 := by omega
      have h3 : b2 % 64 < 64 := by omega
      have ih := decode_encode_aux rest (fun b hb => h b (by simp [hb]))
      simp only [encode, decode]
      rw [if_neg (sextetCode_ne_pad h2), if_neg (sextetCode_ne_pad h3),
        codeSextet_sextetCode h0, codeSextet_sextetCode h1,
        codeSextet_sextetCode h2, codeSextet_sextetCode h3, ih]
      simp only [List.cons.injEq, and_true]
      omega

/-! ### AudioCodec: float sample conversion

`LiveClient.createBlob` stores `data[i] * 32768` into an `Int16Array`, which
per JavaScript semantics truncates the product toward zero and wraps it into
the signed 16-bit range; `LiveClient.decodeAudioData` divides the 16-bit value
by `32768.0`.  Samples are modelled as rationals: scaling by the power of two
32768 and dividing by it are exact in binary floating point, so the rational
model agrees with the source on every representable input.
-/

/-- JavaScript number-to-integer conversion: truncation toward zero. -/
def jsTrunc (x : Rat) : Int := if x < 0 then ⌈x⌉ else ⌊x⌋

/-- Wrap an integer into the signed 16-bit range, as storing into an
`Int16Array` does: reduce modulo 2^16 and reinterpret the top half as
negative. -/
def toInt16 (n : Int) : Int :=
  if 32768 ≤ n % 65536 then n % 65536 - 65536 else n % 65536

/-- Sample path of `LiveClient.createBlob`: `int16[i] = data[i] * 32768`. -/
def createBlobSample (x : Rat) : Int := toInt16 (jsTrunc (x * 32768))

/-- Sample path of `LiveClient.decodeAudioData`:
`channelData[i] = dataInt16[i] / 32768.0`. -/
def decodeSample (n : Int) : Rat := (n : Rat) / 32768

/-- Duration in seconds of the playable buffer `decodeAudioData` builds from a
byte buffer: the `Int16Array` view has `bytes.length / 2` entries, one channel,
at 24000 samples per second. -/
def chunkDuration (bytes : List Nat) : Rat := ((bytes.length / 2 : Nat) : Rat) / 24000

/-! ### SessionManager: `LiveClient` state

The mutable fields of the `LiveClient` class become a state record.  Audio
nodes and contexts are modelled by whether they are live (a null or
disconnected node and a closed context behave identically to every operation
the claims mention).  Two ghost fields record externally observable effects:
`stoppedHandles` accumulates every playback source on which `stop()` has been
called, and `connectCalls` counts entries into `connect` (so that "no
automatic retry" is expressible).  Emitted observer snapshots are returned
alongside the new state rather than stored, since `onStateChange` is a call
out of the class. -/

/-- The observable session state pushed to the observer
(`LiveClientState` in the source). -/
structure LiveClientState where
  isConnected : Bool
  isSpeaking : Bool
  error : Option String
deriving DecidableEq

/-- A partial state update, as passed to `updateState`
(`Partial<LiveClientState>` in the source): `none` means the field is absent
from the object literal and keeps its previous value under spread merge. -/
structure StatePatch where
  isConnected : Option Bool := none
  isSpeaking : Option Bool := none
  error : Option (Option String) := none

/-- A scheduled playback source (`AudioBufferSourceNode`): its start time and
buffer duration, plus the environment's choice of whether its `stop()` method
throws (an already-stopped node may). -/
structure Handle where
  startTime : Rat
  duration : Rat
  stopRaises : Bool
deriving DecidableEq

/-- The private mutable state of a `LiveClient` instance. -/
structure ClientState where
  /-- capture `AudioContext` is live (created and not closed) -/
  inputContext : Bool
  /-- playback `AudioContext` is live (created, not closed, not null) -/
  outputContext : Bool
  /-- the microphone `MediaStreamAudioSourceNode` is connected -/
  inputSourceConnected : Bool
  /-- the `ScriptProcessorNode` driving the capture loop is connected -/
  processorConnected : Bool
  /-- `nextStartTime`: the playback cursor -/
  nextStartTime : Rat
  /-- `audioQueue`: scheduled, not-yet-discarded playback sources -/
  audioQueue : List Handle
  /-- `currentState`: the last pushed observable snapshot -/
  currentState : LiveClientState
  /-- ghost: every source on which `stop()` has been called, in call order -/
  stoppedHandles : List Handle
  /-- ghost: number of times `connect` has been entered -/
  connectCalls : Nat
deriving DecidableEq

/-- The state a freshly constructed `LiveClient` starts in. -/
def initialState : ClientState :=
  { inputContext := false
    outputContext := false
    inputSourceConnected := false
    processorConnected := false
    nextStartTime := 0
    audioQueue := []
    currentState := { isConnected := false, isSpeaking := false, error := none }
    stoppedHandles := []
    connectCalls := 0 }

/-- `LiveClient.updateState`: spread-merge the partial update into
`currentState` and invoke the observer once with the merged snapshot.  The
second component is the list of observer invocations this call performs. -/
def updateState (s : ClientState) (p : StatePatch) : ClientState × List LiveClientState :=
  let st : LiveClientState :=
    { isConnected := p.isConnected.getD s.currentState.isConnected
      isSpeaking := p.isSpeaking.getD s.currentState.isSpeaking
      error := p.error.getD s.currentState.error }
  ({ s with currentState := st }, [st])

/-- The browser's `AudioBufferSourceNode.stop`: may throw
(`InvalidStateError`) depending on the node's state. -/
def sourceStop (h : Handle) : Except String Unit :=
  if h.stopRaises then Except.error "InvalidStateError" else Except.ok ()

/-- The loop body of `LiveClient.stopAudioQueue`:
`try { source.stop(); } catch (e) {}` over each queued source — the empty
catch block swallows whatever `stop` throws. -/
def tryStopAll : List Handle → Except String Unit
  | [] => Except.ok ()
  | h :: rest =>
    match sourceStop h with
    | Except.ok _ => tryStopAll rest
    | Except.error _ => tryStopAll rest

/-- `LiveClient.stopAudioQueue` as a state transformer: stop every queued
source, clear the queue, reset the cursor to zero. -/
def stopAudioQueue (s : ClientState) : ClientState :=
  { s with
    stoppedHandles := s.stoppedHandles ++ s.audioQueue
    audioQueue := []
    nextStartTime := 0 }

/-- `LiveClient.stopAudioQueue` with error propagation made explicit: the
loop runs in the `Except` monad, then the queue and cursor are reset. -/
def stopAudioQueueE (s : ClientState) : Except String ClientState := do
  let _ ← tryStopAll s.audioQueue
  pure (stopAudioQueue s)

/-- An inbound `LiveServerMessage`, reduced to the two fields `handleMessage`
reads: the optional base64 audio payload
(`serverContent?.modelTurn?.parts?.[0]?.inlineData?.data`, as code units) and
the `serverContent?.interrupted` flag. -/
structure ServerMessage where
  audioData : Option (List Nat)
  interrupted : Bool

/-- `LiveClient.handleMessage`.  `now` is `outputContext.currentTime` at the
schedule point; `raises` is the environment's choice for the new source's
`stop` behaviour.  If the message carries a non-empty audio payload (an empty
string is falsy in `audioString && this.outputContext`) and the playback
context is live: set `isSpeaking`, move the cursor to
`max(nextStartTime, currentTime)`, decode the payload, start the source at
the cursor, advance the cursor by the buffer's duration and enqueue the
source.  Independently, if the message carries the interruption flag: stop
the queue and clear `isSpeaking`. -/
def handleMessage (now : Rat) (raises : Bool) (msg : ServerMessage)
    (s : ClientState) : ClientState × List LiveClientState :=
  let audioStep : ClientState × List LiveClientState :=
    match msg.audioData with
    | some str =>
      if str ≠ [] ∧ s.outputContext = true then
        let p1 := updateState s { isSpeaking := some true }
        let start := max p1.1.nextStartTime now
        let bytes := decode str
        let h : Handle :=
          { startTime := start, duration := chunkDuration bytes, stopRaises := raises }
        ({ p1.1 with
            nextStartTime := start + chunkDuration bytes
            audioQueue := p1.1.audioQueue ++ [h] }, p1.2)
      else (s, [])
    | none => (s, [])
  if msg.interrupted then
    let s2 := stopAudioQueue audioStep.1
    let p3 := updateState s2 { isSpeaking := some false }
    (p3.1, audioStep.2 ++ p3.2)
  else audioStep

/-- `LiveClient.disconnect`: stop the audio queue, disconnect the capture
nodes if present, close and null both contexts, and push
`{isConnected: false, isSpeaking: false}`. -/
def disconnect (s : ClientState) : ClientState × List LiveClientState :=
  let s1 := stopAudioQueue s
  let s2 : ClientState :=
    { s1 with
      inputSourceConnected := false
      processorConnected := false
      inputContext := false
      outputContext := false }
  updateState s2 { isConnected := some false, isSpeaking := some false }

/-- The environment a `connect` call runs against: the outcome of
`getUserMedia` (rejection carries `error.message`) and of the live session's
open handshake (failure fires `onerror`). -/
structure ConnectEnv where
  mediaResult : Except String Unit
  openResult : Except String Unit

/-- `LiveClient.connect`: clear the error, create both contexts, request the
microphone.  On `getUserMedia` rejection the `catch` block pushes
`error.message || "Failed to connect"`.  Otherwise the session opens:
`onopen` pushes `isConnected` and wires the capture loop, while a transport
failure fires `onerror`, which pushes `error: "Connection lost"` and calls
`disconnect()`.  No path calls `connect` again. -/
def connect (env : ConnectEnv) (s : ClientState) : ClientState × List LiveClientState :=
  let p0 := updateState s { error := some none }
  let s1 : ClientState :=
    { p0.1 with
      inputContext := true
      outputContext := true
      connectCalls := p0.1.connectCalls + 1 }
  match env.mediaResult with
  | Except.error msg =>
      let p2 := updateState s1
        { error := some (some (if msg = "" then "Failed to connect" else msg)) }
      (p2.1, p0.2 ++ p2.2)
  | Except.ok _ =>
    match env.openResult with
    | Except.ok _ =>
        let p2 := updateState s1 { isConnected := some true }
        let s3 : ClientState :=
          { p2.1 with inputSourceConnected := true, processorConnected := true }
        (s3, p0.2 ++ p2.2)
    | Except.error _ =>
        let p2 := updateState s1 { error := some (some "Connection lost") }
        let p3 := disconnect p2.1
        (p3.1, p0.2 ++ p2.2 ++ p3.2)

/-- Deliver a list of audio-only messages (device time paired with the base64
payload) in arrival order, with no interruption and no disconnect in
between. -/
def runAudioMessages (msgs : List (Rat × List Nat)) (s : ClientState) : ClientState :=
  msgs.foldl
    (fun acc m =>
      (handleMessage m.1 false { audioData := some m.2, interrupted := false } acc).1)
    s

/-- No two scheduled sources overlap: each starts no earlier than its
predecessor's start time plus the predecessor's duration. -/
def NoOverlap (q : List Handle) : Prop :=
  List.Chain' (fun a b => a.startTime + a.duration ≤ b.startTime) q

theorem chunkDuration_nonneg (bytes : List Nat) : 0 ≤ chunkDuration bytes := by
  unfold chunkDuration
  positivity

/-! ### Claim theorems -/

/-- C7: `updateState` invokes the observer exactly once, with the full merged
state snapshot (never a delta), and every field absent from the partial
update retains its previous value in the emitted snapshot. -/
theorem updateState_full_snapshot (s : ClientState) (p : StatePatch) :
    (updateState s p).2 = [(updateState s p).1.currentState]
    ∧ (p.isConnected = none →
        (updateState s p).1.currentState.isConnected = s.currentState.isConnected)
    ∧ (p.isSpeaking = none →
        (updateState s p).1.currentState.isSpeaking = s.currentState.isSpeaking)
    ∧ (p.error = none →
        (updateState s p).1.currentState.error = s.currentState.error) := by
  refine ⟨rfl, ?_, ?_, ?_⟩ <;> intro h <;> simp [updateState, h]

/-- C7 witness: a transition that only sets `isSpeaking` emits one full
snapshot and leaves `isConnected` and `error` at their previous values. -/
theorem updateState_full_snapshot_witness :
    (updateState initialState { isSpeaking := some true }).2
      = [(updateState initialState { isSpeaking := some true }).1.currentState]
    ∧ (updateState initialState { isSpeaking := some true }).1.currentState.isConnected
      = initialState.currentState.isConnected
    ∧ (updateState initialState { isSpeaking := some true }).1.currentState.error
      = initialState.currentState.error :=
  ⟨(updateState_full_snapshot initialState { isSpeaking := some true }).1,
   (updateState_full_snapshot initialState { isSpeaking := some true }).2.1 rfl,
   (updateState_full_snapshot initialState { isSpeaking := some true }).2.2.2 rfl⟩

/-- C9: the interrupt path never raises: the `try`/`catch` around each
`source.stop()` swallows any `InvalidStateError`, so for every possible queue
content — whatever each handle's `stop` would do — `stopAudioQueue` completes
normally with the queue cleared and the cursor reset. -/
theorem stop_audio_queue_never_errors (s : ClientState) :
    stopAudioQueueE s = Except.ok (stopAudioQueue s) := by
  have key : ∀ q : List Handle, tryStopAll q = Except.ok () := by
    intro q
    induction q with
    | nil => rfl
    | cons hd tl ih =>
        cases hr : sourceStop hd <;> simp [tryStopAll, hr, ih]
  simp [stopAudioQueueE, key]

/-- C6: `disconnect` stops the capture loop (both capture nodes disconnected),
releases both audio contexts, forces the playback interrupt (all queued
handles stopped, queue cleared, cursor reset), leaves
`isConnected = false` and `isSpeaking = false`, and is idempotent: a second
call leaves the state unchanged. -/
theorem disconnect_releases_and_idempotent (s : ClientState) :
    (disconnect s).1.processorConnected = false
    ∧ (disconnect s).1.inputSourceConnected = false
    ∧ (disconnect s).1.inputContext = false
    ∧ (disconnect s).1.outputContext = false
    ∧ (disconnect s).1.audioQueue = []
    ∧ (disconnect s).1.nextStartTime = 0
    ∧ (disconnect s).1.stoppedHandles = s.stoppedHandles ++ s.audioQueue
    ∧ (disconnect s).1.currentState.isConnected = false
    ∧ (disconnect s).1.currentState.isSpeaking = false
    ∧ (disconnect (disconnect s).1).1 = (disconnect s).1 := by
  refine ⟨rfl, rfl, rfl, rfl, rfl, rfl, rfl, rfl, rfl, ?_⟩
  simp [disconnect, stopAudioQueue, updateState]

/-- C1: a message carrying a (non-empty) audio payload while the playback
context is live appends exactly one handle to the queue; its start time is
`max(cursor, current device time)`, the cursor afterwards is that start time
plus exactly the chunk's duration, and when the device clock has advanced
past the cursor the chunk starts at the device clock, not the stale
cursor. -/
theorem handleMessage_schedules_at_max (now : Rat) (raises : Bool)
    (str : List Nat) (s : ClientState) (hne : str ≠ [])
    (hout : s.outputContext = true) :
    ∃ h : Handle,
      (handleMessage now raises { audioData := some str, interrupted := false } s).1.audioQueue
        = s.audioQueue ++ [h]
      ∧ h.startTime = max s.nextStartTime now
      ∧ h.duration = chunkDuration (decode str)
      ∧ (handleMessage now raises { audioData := some str, interrupted := false } s).1.nextStartTime
        = h.startTime + h.duration
      ∧ (s.nextStartTime < now → h.startTime = now) := by
  refine ⟨{ startTime := max s.nextStartTime now,
            duration := chunkDuration (decode str),
            stopRaises := raises }, ?_, rfl, rfl, ?_, ?_⟩
  · simp [handleMessage, updateState, hne, hout]
  · simp [handleMessage, updateState, hne, hout]
  · intro hlt
    exact max_eq_right hlt.le

/-- C1 witness: scheduling a concrete two-byte chunk at device time 3 from
cursor 1 starts it at time 3 and advances the cursor by its duration. -/
theorem handleMessage_schedules_at_max_witness :
    encode [9, 200] ≠ [] ∧
    ({ initialState with outputContext := true, nextStartTime := 1 }
        : ClientState).outputContext = true ∧
    ∃ h : Handle,
      (handleMessage 3 false { audioData := some (encode [9, 200]), interrupted := false }
          { initialState with outputContext := true, nextStartTime := 1 }).1.audioQueue
        = ({ initialState with outputContext := true, nextStartTime := 1 }
            : ClientState).audioQueue ++ [h]
      ∧ h.startTime = max ({ initialState with outputContext := true, nextStartTime := 1 }
            : ClientState).nextStartTime 3
      ∧ h.duration = chunkDuration (decode (encode [9, 200]))
      ∧ (handleMessage 3 false { audioData := some (encode [9, 200]), interrupted := false }
          { initialState with outputContext := true, nextStartTime := 1 }).1.nextStartTime
        = h.startTime + h.duration
      ∧ (({ initialState with outputContext := true, nextStartTime := 1 }
            : ClientState).nextStartTime < 3 → h.startTime = 3) :=
  ⟨by decide, rfl,
   handleMessage_schedules_at_max 3 false (encode [9, 200])
     { initialState with outputContext := true, nextStartTime := 1 } (by decide) rfl⟩

/-- C10: a message carrying both an audio payload and the interruption flag
schedules the audio first and then applies the interruption: the final state
has `isSpeaking = false`, an empty queue and a zero cursor, and the
just-scheduled source was stopped along with the rest of the queue. -/
theorem both_signals_interrupt_wins (now : Rat) (raises : Bool)
    (str : List Nat) (s : ClientState) (hne : str ≠ [])
    (hout : s.outputContext = true) :
    (handleMessage now raises { audioData := some str, interrupted := true } s).1.currentState.isSpeaking
      = false
    ∧ (handleMessage now raises { audioData := some str, interrupted := true } s).1.audioQueue = []
    ∧ (handleMessage now raises { audioData := some str, interrupted := true } s).1.nextStartTime = 0
    ∧ (handleMessage now raises { audioData := some str, interrupted := true } s).1.stoppedHandles
      = s.stoppedHandles ++ s.audioQueue
        ++ [{ startTime := max s.nextStartTime now,
              duration := chunkDuration (decode str),
              stopRaises := raises }] := by
  refine ⟨?_, ?_, ?_, ?_⟩ <;>
    simp [handleMessage, updateState, stopAudioQueue, hne, hout]

/-- C10 witness: a concrete message carrying both signals leaves
`isSpeaking = false`, an empty queue, a zero cursor, and the new source among
the stopped handles. -/
theorem both_signals_interrupt_wins_witness :
    (handleMessage 2 false { audioData := some (encode [1, 2]), interrupted := true }
        { initialState with outputContext := true }).1.currentState.isSpeaking = false
    ∧ (handleMessage 2 false { audioData := some (encode [1, 2]), interrupted := true }
        { initialState with outputContext := true }).1.audioQueue = []
    ∧ (handleMessage 2 false { audioData := some (encode [1, 2]), interrupted := true }
        { initialState with outputContext := true }).1.nextStartTime = 0
    ∧ (handleMessage 2 false { audioData := some (encode [1, 2]), interrupted := true }
        { initialState with outputContext := true }).1.stoppedHandles
      = ({ initialState with outputContext := true } : ClientState).stoppedHandles
        ++ ({ initialState with outputContext := true } : ClientState).audioQueue
        ++ [{ startTime := max ({ initialState with outputContext := true }
                : ClientState).nextStartTime 2,
              duration := chunkDuration (decode (encode [1, 2])),
              stopRaises := false }] :=
  both_signals_interrupt_wins 2 false (encode [1, 2])
    { initialState with outputContext := true } (by decide) rfl

/-- C8: when any setup step of `connect` fails — the microphone request is
rejected, or the transport open fails — the session lands in an error state
carrying a non-empty human-readable message, `isConnected` stays `false`,
and exactly one connection attempt was made (no automatic retry). -/
theorem connect_failure_is_terminal (env : ConnectEnv) (s : ClientState)
    (m : String) (hc : s.currentState.isConnected = false)
    (hfail : env.mediaResult = Except.error m
      ∨ (env.mediaResult = Except.ok () ∧ env.openResult = Except.error m)) :
    ∃ t : String,
      (connect env s).1.currentState.error = some t ∧ t ≠ ""
      ∧ (connect env s).1.currentState.isConnected = false
      ∧ (connect env s).1.connectCalls = s.connectCalls + 1 := by
  rcases hfail with hm | ⟨hm, ho⟩
  · refine ⟨if m = "" then "Failed to connect" else m, ?_, ?_, ?_, ?_⟩ <;>
      simp [connect, updateState, hm, hc]
    split <;> simp_all
  · refine ⟨"Connection lost", ?_, ?_, ?_, ?_⟩ <;>
      simp [connect, updateState, disconnect, stopAudioQueue, hm, ho]

/-- C8 witness: a rejected microphone request leaves an error message, no
connection, and a single attempt. -/
theorem connect_failure_is_terminal_witness :
    ∃ t : String,
      (connect { mediaResult := Except.error "Permission denied",
                 openResult := Except.ok () } initialState).1.currentState.error = some t
      ∧ t ≠ ""
      ∧ (connect { mediaResult := Except.error "Permission denied",
                   openResult := Except.ok () } initialState).1.currentState.isConnected = false
      ∧ (connect { mediaResult := Except.error "Permission denied",
                   openResult := Except.ok () } initialState).1.connectCalls
        = initialState.connectCalls + 1 :=
  connect_failure_is_terminal
    { mediaResult := Except.error "Permission denied", openResult := Except.ok () }
    initialState "Permission denied" rfl (Or.inl rfl)

/-- C3: after an interruption — an inbound interruption signal while
`isSpeaking` is `true`, or the internal `stopAudioQueue` — every queued
playback handle has been stopped, the queue is empty, the cursor is exactly
zero, and (on the signal path) `isSpeaking` is `false`; a subsequent schedule
then produces exactly the queue and cursor it would produce in a state in
which no chunk had ever been scheduled. -/
theorem interrupt_resets (now : Rat) (raises : Bool) (s : ClientState)
    (hsp : s.currentState.isSpeaking = true) :
    (handleMessage now raises { audioData := none, interrupted := true } s).1.currentState.isSpeaking
      = false
    ∧ (handleMessage now raises { audioData := none, interrupted := true } s).1.audioQueue = []
    ∧ (handleMessage now raises { audioData := none, interrupted := true } s).1.nextStartTime = 0
    ∧ (handleMessage now raises { audioData := none, interrupted := true } s).1.stoppedHandles
      = s.stoppedHandles ++ s.audioQueue
    ∧ ((stopAudioQueue s).audioQueue = []
       ∧ (stopAudioQueue s).nextStartTime = 0
       ∧ (stopAudioQueue s).stoppedHandles = s.stoppedHandles ++ s.audioQueue)
    ∧ (∀ now' : Rat, ∀ raises' : Bool, ∀ str : List Nat,
        (handleMessage now' raises' { audioData := some str, interrupted := false }
            (handleMessage now raises { audioData := none, interrupted := true } s).1).1.audioQueue
          = (handleMessage now' raises' { audioData := some str, interrupted := false }
              { initialState with outputContext := s.outputContext }).1.audioQueue
        ∧ (handleMessage now' raises' { audioData := some str, interrupted := false }
            (handleMessage now raises { audioData := none, interrupted := true } s).1).1.nextStartTime
          = (handleMessage now' raises' { audioData := some str, interrupted := false }
              { initialState with outputContext := s.outputContext }).1.nextStartTime) := by
  refine ⟨rfl, rfl, rfl, rfl, ⟨rfl, rfl, rfl⟩, ?_⟩
  intro now' raises' str
  by_cases hc : str ≠ [] ∧ s.outputContext = true
  · constructor <;>
      simp [handleMessage, updateState, stopAudioQueue, initialState, hc]
  · constructor <;>
      simp [handleMessage, updateState, stopAudioQueue, initialState, hc]

/-- C3 witness: interrupting a concrete speaking session with one queued
chunk and cursor 5 stops that chunk, clears the queue, zeroes the cursor,
clears `isSpeaking`, and a subsequent schedule matches a fresh session. -/
theorem interrupt_resets_witness :
    (handleMessage 7 false { audioData := none, interrupted := true }
        { initialState with
          outputContext := true
          nextStartTime := 5
          audioQueue := [{ startTime := 1, duration := 2, stopRaises := true }]
          currentState := { isConnected := true, isSpeaking := true, error := none } }).1.currentState.isSpeaking
      = false
    ∧ (handleMessage 7 false { audioData := none, interrupted := true }
        { initialState with
          outputContext := true
          nextStartTime := 5
          audioQueue := [{ startTime := 1, duration := 2, stopRaises := true }]
          currentState := { isConnected := true, isSpeaking := true, error := none } }).1.audioQueue
      = []
    ∧ (handleMessage 7 false { audioData := none, interrupted := true }
        { initialState with
          outputContext := true
          nextStartTime := 5
          audioQueue := [{ startTime := 1, duration := 2, stopRaises := true }]
          currentState := { isConnected := true, isSpeaking := true, error := none } }).1.nextStartTime
      = 0
    ∧ (handleMessage 7 false { audioData := none, interrupted := true }
        { initialState with
          outputContext := true
          nextStartTime := 5
          audioQueue := [{ startTime := 1, duration := 2, stopRaises := true }]
          currentState := { isConnected := true, isSpeaking := true, error := none } }).1.stoppedHandles
      = ({ initialState with
          outputContext := true
          nextStartTime := 5
          audioQueue := [{ startTime := 1, duration := 2, stopRaises := true }]
          currentState := { isConnected := true, isSpeaking := true, error := none } }
          : ClientState).stoppedHandles
        ++ ({ initialState with
          outputContext := true
          nextStartTime := 5
          audioQueue := [{ startTime := 1, duration := 2, stopRaises := true }]
          currentState := { isConnected := true, isSpeaking := true, error := none } }
          : ClientState).audioQueue
    ∧ ((stopAudioQueue
        { initialState with
          outputContext := true
          nextStartTime := 5
          audioQueue := [{ startTime := 1, duration := 2, stopRaises := true }]
          currentState := { isConnected := true, isSpeaking := true, error := none } }).audioQueue
        = []
       ∧ (stopAudioQueue
        { initialState with
          outputContext := true
          nextStartTime := 5
          audioQueue := [{ startTime := 1, duration := 2, stopRaises := true }]
          currentState := { isConnected := true, isSpeaking := true, error := none } }).nextStartTime
        = 0
       ∧ (stopAudioQueue
        { initialState with
          outputContext := true
          nextStartTime := 5
          audioQueue := [{ startTime := 1, duration := 2, stopRaises := true }]
          currentState := { isConnected := true, isSpeaking := true, error := none } }).stoppedHandles
        = ({ initialState with
          outputContext := true
          nextStartTime := 5
          audioQueue := [{ startTime := 1, duration := 2, stopRaises := true }]
          currentState := { isConnected := true, isSpeaking := true, error := none } }
          : ClientState).stoppedHandles
          ++ ({ initialState with
          outputContext := true
          nextStartTime := 5
          audioQueue := [{ startTime := 1, duration := 2, stopRaises := true }]
          currentState := { isConnected := true, isSpeaking := true, error := none } }
          : ClientState).audioQueue)
    ∧ (∀ now' : Rat, ∀ raises' : Bool, ∀ str : List Nat,
        (handleMessage now' raises' { audioData := some str, interrupted := false }
            (handleMessage 7 false { audioData := none, interrupted := true }
              { initialState with
                outputContext := true
                nextStartTime := 5
                audioQueue := [{ startTime := 1, duration := 2, stopRaises := true }]
                currentState := { isConnected := true, isSpeaking := true, error := none } }).1).1.audioQueue
          = (handleMessage now' raises' { audioData := some str, interrupted := false }
              { initialState with
                outputContext := ({ initialState with
                  outputContext := true
                  nextStartTime := 5
                  audioQueue := [{ startTime := 1, duration := 2, stopRaises := true }]
                  currentState := { isConnected := true, isSpeaking := true, error := none } }
                  : ClientState).outputContext }).1.audioQueue
        ∧ (handleMessage now' raises' { audioData := some str, interrupted := false }
            (handleMessage 7 false { audioData := none, interrupted := true }
              { initialState with
                outputContext := true
                nextStartTime := 5
                audioQueue := [{ startTime := 1, duration := 2, stopRaises := true }]
                currentState := { isConnected := true, isSpeaking := true, error := none } }).1).1.nextStartTime
          = (handleMessage now' raises' { audioData := some str, interrupted := false }
              { initialState with
                outputContext := ({ initialState with
                  outputContext := true
                  nextStartTime := 5
                  audioQueue := [{ startTime := 1, duration := 2, stopRaises := true }]
                  currentState := { isConnected := true, isSpeaking := true, error := none } }
                  : ClientState).outputContext }).1.nextStartTime) :=
  interrupt_resets 7 false
    { initialState with
      outputContext := true
      nextStartTime := 5
      audioQueue := [{ startTime := 1, duration := 2, stopRaises := true }]
      currentState := { isConnected := true, isSpeaking := true, error := none } }
    rfl

theorem handleMessage_audio_step (now : Rat) (raises : Bool) (str : List Nat)
    (s : ClientState) (hne : str ≠ []) (hout : s.outputContext = true) :
    (handleMessage now raises { audioData := some str, interrupted := false } s).1.audioQueue
      = s.audioQueue
        ++ [{ startTime := max s.nextStartTime now,
              duration := chunkDuration (decode str), stopRaises := raises }]
    ∧ (handleMessage now raises { audioData := some str, interrupted := false } s).1.nextStartTime
      = max s.nextStartTime now + chunkDuration (decode str)
    ∧ (handleMessage now raises { audioData := some str, interrupted := false } s).1.outputContext
      = s.outputContext := by
  refine ⟨?_, ?_, ?_⟩ <;> simp [handleMessage, updateState, hne, hout]

theorem runAudioMessages_cons (m : Rat × List Nat) (ms : List (Rat × List Nat))
    (s : ClientState) :
    runAudioMessages (m :: ms) s
      = runAudioMessages ms
          ((handleMessage m.1 false { audioData := some m.2, interrupted := false } s).1) := rfl

theorem chain_mono : ∀ q : List Handle, (∀ h ∈ q, 0 ≤ h.duration) →
    List.Chain' (fun a b => a.startTime + a.duration ≤ b.startTime) q →
    List.Chain' (fun a b => a.startTime ≤ b.startTime) q
  | [], _, _ => List.chain'_nil
  | [_], _, _ => List.chain'_singleton _
  | a :: b :: rest, hd, hc => by
      rw [List.chain'_cons] at hc ⊢
      refine ⟨?_, chain_mono (b :: rest) (fun h hh => hd h (by simp [hh])) hc.2⟩
      have ha := hd a (by simp)
      linarith [hc.1]

theorem runAudio_invariant : ∀ (msgs : List (Rat × List Nat)) (s : ClientState),
    s.outputContext = true →
    (∀ m ∈ msgs, m.2 ≠ []) →
    (∀ h ∈ s.audioQueue, h.startTime + h.duration ≤ s.nextStartTime) →
    NoOverlap s.audioQueue →
    (runAudioMessages msgs s).outputContext = true
    ∧ (∀ h ∈ (runAudioMessages msgs s).audioQueue,
        h.startTime + h.duration ≤ (runAudioMessages msgs s).nextStartTime)
    ∧ NoOverlap (runAudioMessages msgs s).audioQueue
    ∧ (runAudioMessages msgs s).audioQueue.map Handle.duration
      = s.audioQueue.map Handle.duration ++ msgs.map (fun m => chunkDuration (decode m.2))
    ∧ (∀ h ∈ (runAudioMessages msgs s).audioQueue, h ∈ s.audioQueue ∨ 0 ≤ h.duration)
  | [], s, hout, _, hq, hchain => by
      refine ⟨hout, hq, hchain, by simp [runAudioMessages], fun h hh => Or.inl hh⟩
  | m :: ms, s, hout, hmsgs, hq, hchain => by
      have hne : m.2 ≠ [] := hmsgs m (by simp)
      have hstep := handleMessage_audio_step m.1 false m.2 s hne hout
      rw [runAudioMessages_cons]
      have hd0 : (0 : Rat) ≤ chunkDuration (decode m.2) := chunkDuration_nonneg _
      have hcur : s.nextStartTime ≤ max s.nextStartTime m.1 := le_max_left _ _
      have hq' : ∀ h ∈ (handleMessage m.1 false
          { audioData := some m.2, interrupted := false } s).1.audioQueue,
          h.startTime + h.duration ≤ (handleMessage m.1 false
            { audioData := some m.2, interrupted := false } s).1.nextStartTime := by
        rw [hstep.1, hstep.2.1]
        intro h hh
        rcases List.mem_append.mp hh with hold | hnew
        · have := hq h hold
          linarith
        · simp only [List.mem_singleton] at hnew
          subst hnew
          simp
      have hchain' : NoOverlap (handleMessage m.1 false
          { audioData := some m.2, interrupted := false } s).1.audioQueue := by
        rw [hstep.1]
        refine List.chain'_append.mpr ⟨hchain, List.chain'_singleton _, ?_⟩
        intro x hx y hy
        simp only [List.head?_cons, Option.mem_def, Option.some.injEq] at hy
        subst hy
        have hxm : x ∈ s.audioQueue := List.mem_of_mem_getLast? hx
        have := hq x hxm
        simp only []
        linarith
      have ih := runAudio_invariant ms
        ((handleMessage m.1 false { audioData := some m.2, interrupted := false } s).1)
        (hstep.2.2.trans hout) (fun mm hmm => hmsgs mm (by simp [hmm])) hq' hchain'
      refine ⟨ih.1, ih.2.1, ih.2.2.1, ?_, ?_⟩
      · rw [ih.2.2.2.1, hstep.1]
        simp [List.append_assoc]
      · intro h hh
        rcases ih.2.2.2.2 h hh with hmem | hpos
        · rw [hstep.1] at hmem
          rcases List.mem_append.mp hmem with hold | hnew
          · exact Or.inl hold
          · simp only [List.mem_singleton] at hnew
            subst hnew
            exact Or.inr hd0
        · exact Or.inr hpos

/-- C2: delivering any sequence of audio chunks with positive durations in
arrival order, with no interruption or disconnect in between, yields a queue
whose start times are non-decreasing, in which each chunk starts no earlier
than its predecessor's start time plus the predecessor's duration (no
overlap), and which contains exactly one handle per message, in arrival
order (no chunk reordered or dropped). -/
theorem scheduled_chunks_ordered (msgs : List (Rat × List Nat)) (s : ClientState)
    (hout : s.outputContext = true) (hq : s.audioQueue = [])
    (hpos : ∀ m ∈ msgs, 2 ≤ (decode m.2).length) :
    NoOverlap (runAudioMessages msgs s).audioQueue
    ∧ List.Chain' (fun a b => a.startTime ≤ b.startTime)
        (runAudioMessages msgs s).audioQueue
    ∧ (runAudioMessages msgs s).audioQueue.map Handle.duration
      = msgs.map (fun m => chunkDuration (decode m.2))
    ∧ (runAudioMessages msgs s).audioQueue.length = msgs.length := by
  have hdecnil : decode ([] : List Nat) = [] := by decide
  have hne : ∀ m ∈ msgs, m.2 ≠ [] := by
    intro m hm hcontra
    have hlen := hpos m hm
    rw [hcontra, hdecnil] at hlen
    simp at hlen
  have inv := runAudio_invariant msgs s hout hne
    (by rw [hq]; intro h hh; simp at hh) (by rw [hq]; exact List.chain'_nil)
  have hmap : (runAudioMessages msgs s).audioQueue.map Handle.duration
      = msgs.map (fun m => chunkDuration (decode m.2)) := by
    rw [inv.2.2.2.1, hq]
    simp
  have hnonneg : ∀ h ∈ (runAudioMessages msgs s).audioQueue, 0 ≤ h.duration := by
    intro h hh
    rcases inv.2.2.2.2 h hh with hmem | hge
    · rw [hq] at hmem
      simp at hmem
    · exact hge
  refine ⟨inv.2.2.1, chain_mono _ hnonneg inv.2.2.1, hmap, ?_⟩
  have := congrArg List.length hmap
  simpa using this

/-- C2 witness: two concrete two-byte chunks delivered at device times 0 and
3 from a fresh session are scheduled in order, without overlap, with
non-decreasing start times. -/
theorem scheduled_chunks_ordered_witness :
    NoOverlap (runAudioMessages [(0, encode [1, 2]), (3, encode [4, 5])]
        { initialState with outputContext := true }).audioQueue
    ∧ List.Chain' (fun a b => a.startTime ≤ b.startTime)
        (runAudioMessages [(0, encode [1, 2]), (3, encode [4, 5])]
          { initialState with outputContext := true }).audioQueue
    ∧ (runAudioMessages [(0, encode [1, 2]), (3, encode [4, 5])]
        { initialState with outputContext := true }).audioQueue.map Handle.duration
      = [(0, encode [1, 2]), (3, encode [4, 5])].map
          (fun m => chunkDuration (decode m.2))
    ∧ (runAudioMessages [(0, encode [1, 2]), (3, encode [4, 5])]
        { initialState with outputContext := true }).audioQueue.length
      = [(0, encode [1, 2]), (3, encode [4, 5])].length :=
  scheduled_chunks_ordered [(0, encode [1, 2]), (3, encode [4, 5])]
    { initialState with outputContext := true } rfl rfl (by decide)

/-- C4: decoding the transport encoding of any byte sequence returns the
original bytes exactly, byte for byte. -/
theorem transport_roundtrip (bs : List Nat) (h : ∀ b ∈ bs, b < 256) :
    decode (encode bs) = bs :=
  decode_encode_aux bs h

/-- C4 witness: the three bytes of "Hi!" survive the round trip. -/
theorem transport_roundtrip_witness :
    (∀ b ∈ [72, 105, 33], b < 256) ∧ decode (encode [72, 105, 33]) = [72, 105, 33] :=
  ⟨by decide, transport_roundtrip [72, 105, 33] (by decide)⟩

theorem jsTrunc_facts (y : Rat) (hlo : -32768 ≤ y) (hhi : y < 32768) :
    (-32768 ≤ jsTrunc y ∧ jsTrunc y ≤ 32767)
    ∧ (y - 1 < (jsTrunc y : Rat) ∧ (jsTrunc y : Rat) < y + 1)
    ∧ (0 ≤ y → 0 ≤ jsTrunc y) ∧ (y ≤ 0 → jsTrunc y ≤ 0) := by
  by_cases hneg : y < 0
  · have hjt : jsTrunc y = ⌈y⌉ := by unfold jsTrunc; rw [if_pos hneg]
    rw [hjt]
    refine ⟨⟨?_, ?_⟩, ⟨?_, ?_⟩, ?_, ?_⟩
    · exact_mod_cast le_trans hlo (Int.le_ceil y)
    · have : ⌈y⌉ ≤ (0 : Int) := Int.ceil_le.mpr (by exact_mod_cast hneg.le)
      omega
    · have := Int.le_ceil y
      linarith
    · exact Int.ceil_lt_add_one y
    · intro h0
      linarith
    · intro _
      exact Int.ceil_le.mpr (by exact_mod_cast hneg.le)
  · have hge : 0 ≤ y := not_lt.mp hneg
    have hjt : jsTrunc y = ⌊y⌋ := by unfold jsTrunc; rw [if_neg hneg]
    rw [hjt]
    refine ⟨⟨?_, ?_⟩, ⟨?_, ?_⟩, ?_, ?_⟩
    · have : (0 : Int) ≤ ⌊y⌋ := Int.floor_nonneg.mpr hge
      omega
    · have : ⌊y⌋ < 32768 := Int.floor_lt.mpr (by exact_mod_cast hhi)
      omega
    · exact Int.sub_one_lt_floor y
    · have := Int.floor_le y
      linarith
    · intro _
      exact Int.floor_nonneg.mpr hge
    · intro h0
      have hy0 : y = 0 := le_antisymm h0 hge
      rw [hy0]
      simp

/-- C5 counterexample: the claim ranges over samples in the closed interval
`[-1, 1]`, but at the in-range sample `1` the intermediate value `32768` wraps
around in the `Int16Array`, so the round trip returns `-1`: a sign flip and a
wraparound for in-range input. -/
theorem float_roundtrip_sign_flip :
    ((-1 : Rat) ≤ 1 ∧ (1 : Rat) ≤ 1) ∧ (0 : Rat) < 1
    ∧ createBlobSample 1 = -32768
    ∧ decodeSample (createBlobSample 1) = -1
    ∧ decodeSample (createBlobSample 1) < 0 := by
  refine ⟨⟨by norm_num, le_refl 1⟩, by norm_num, ?_, ?_, ?_⟩ <;>
    norm_num [createBlobSample, decodeSample, toInt16, jsTrunc]

/-- C5 (amended): for float samples in the half-open range `[-1, 1)`,
converting to 16-bit and back introduces bounded quantization error only: the
intermediate integer stays in `[-32768, 32767]` so the 16-bit store performs
no wraparound, the result never has the sign opposite to the input, and the
round-trip error is below `1/32768`.  (At the right endpoint `1` itself the
store wraps to `-32768`, so the closed interval of the original claim is cut
down to the half-open one.) -/
theorem float_roundtrip_bounded (x : Rat) (h1 : -1 ≤ x) (h2 : x < 1) :
    createBlobSample x = jsTrunc (x * 32768)
    ∧ -32768 ≤ createBlobSample x ∧ createBlobSample x ≤ 32767
    ∧ (0 ≤ x → 0 ≤ decodeSample (createBlobSample x))
    ∧ (x ≤ 0 → decodeSample (createBlobSample x) ≤ 0)
    ∧ |decodeSample (createBlobSample x) - x| < 1 / 32768 := by
  have hylo : (-32768 : Rat) ≤ x * 32768 := by linarith
  have hyhi : x * 32768 < 32768 := by linarith
  obtain ⟨⟨hb1, hb2⟩, ⟨hr1, hr2⟩, hs1, hs2⟩ := jsTrunc_facts (x * 32768) hylo hyhi
  have hid : createBlobSample x = jsTrunc (x * 32768) := by
    unfold createBlobSample toInt16
    split <;> omega
  refine ⟨hid, by rw [hid]; exact hb1, by rw [hid]; exact hb2, ?_, ?_, ?_⟩
  · intro h0
    have hn : 0 ≤ jsTrunc (x * 32768) := hs1 (by linarith)
    have hnq : (0 : Rat) ≤ (jsTrunc (x * 32768) : Rat) := by exact_mod_cast hn
    rw [hid]
    unfold decodeSample
    linarith
  · intro h0
    have hn : jsTrunc (x * 32768) ≤ 0 := hs2 (by linarith)
    have hnq : (jsTrunc (x * 32768) : Rat) ≤ 0 := by exact_mod_cast hn
    rw [hid]
    unfold decodeSample
    linarith
  · rw [hid]
    unfold decodeSample
    rw [abs_lt]
    constructor <;> linarith

/-- C5 witness (for the amended claim): the in-range sample `1/2` converts to
`16384`, keeps its sign, and returns within `1/32768` of itself. -/
theorem float_roundtrip_bounded_witness :
    (-1 ≤ (1 / 2 : Rat)) ∧ ((1 / 2 : Rat) < 1)
    ∧ (createBlobSample (1 / 2) = jsTrunc ((1 / 2 : Rat) * 32768)
      ∧ -32768 ≤ createBlobSample (1 / 2) ∧ createBlobSample (1 / 2) ≤ 32767
      ∧ (0 ≤ (1 / 2 : Rat) → 0 ≤ decodeSample (createBlobSample (1 / 2)))
      ∧ ((1 / 2 : Rat) ≤ 0 → decodeSample (createBlobSample (1 / 2)) ≤ 0)
      ∧ |decodeSample (createBlobSample (1 / 2)) - 1 / 2| < 1 / 32768) :=
  ⟨by norm_num, by norm_num,
   float_roundtrip_bounded (1 / 2) (by norm_num) (by norm_num)⟩

end Peacemap
